import Mathlib

set_option maxHeartbeats 1000000

/-! Shallow embedding of the booking MCP server (src/server.ts) and of its
Cloudflare Worker variant.  JavaScript numbers are modelled as rationals,
JavaScript truthiness of optional strings and numbers by the helpers below,
and the fallible external effects (the upstream RapidAPI calls, the SSE
transport) by explicit outcome types.

Rational constants and arithmetic are written with `mkRat` and with the
executable `ratAdd`/`ratMul` wrappers (proved equal to `+`/`*` below) so
that every definition evaluates by kernel reduction on concrete inputs. -/

/-- JS truthiness for an optional string: `undefined` and `""` are falsy. -/
def truthyStr : Option String → Option String
  | none => none
  | some s => if s = "" then none else some s

/-- JS truthiness for an optional number: `undefined` and `0` are falsy. -/
def truthyRat : Option ℚ → Option ℚ
  | none => none
  | some x => if x = 0 then none else some x

/-- JS `a || d` for a string `a` and a constant default `d`. -/
def jsOrStr (a : Option String) (d : String) : String :=
  (truthyStr a).getD d

/-- JS `a || b || d` for optional strings with a constant default. -/
def jsOrStr2 (a b : Option String) (d : String) : String :=
  match truthyStr a with
  | some s => s
  | none => jsOrStr b d

/-- JS `a || b` for two optional strings (the result may be `undefined`). -/
def jsOrStrOpt (a b : Option String) : Option String :=
  match truthyStr a with
  | some s => some s
  | none => b

/-- JS `a || d` for a number with a constant default. -/
def orRatD (a : Option ℚ) (d : ℚ) : ℚ :=
  (truthyRat a).getD d

/-- JS `a || b || d` for optional numbers with a constant default. -/
def orRat2 (a b : Option ℚ) (d : ℚ) : ℚ :=
  match truthyRat a with
  | some x => x
  | none => orRatD b d

/-- Executable rational addition (equal to `+`, see `ratAdd_eq`). -/
def ratAdd (a b : ℚ) : ℚ := mkRat (a.num * b.den + b.num * a.den) (a.den * b.den)

/-- Executable rational multiplication (equal to `*`, see `ratMul_eq`). -/
def ratMul (a b : ℚ) : ℚ := mkRat (a.num * b.num) (a.den * b.den)

theorem ratAdd_eq (a b : ℚ) : ratAdd a b = a + b := by
  have ha : ((a.den : ℚ)) ≠ 0 := Nat.cast_ne_zero.mpr a.den_nz
  have hb : ((b.den : ℚ)) ≠ 0 := Nat.cast_ne_zero.mpr b.den_nz
  rw [ratAdd, Rat.mkRat_eq_div]
  push_cast
  conv_rhs => rw [← Rat.num_div_den a, ← Rat.num_div_den b]
  rw [div_add_div _ _ ha hb]
  ring_nf

theorem ratMul_eq (a b : ℚ) : ratMul a b = a * b := by
  rw [ratMul, Rat.mkRat_eq_div]
  push_cast
  conv_rhs => rw [← Rat.num_div_den a, ← Rat.num_div_den b]
  rw [div_mul_div_comm]

/-- JS `Math.round`: `floor (x + 1/2)`. -/
def jsRound (x : ℚ) : ℚ := (((ratAdd x (mkRat 1 2)).floor : ℤ) : ℚ)

theorem jsRound_eq (x : ℚ) : jsRound x = ((⌊x + 1/2⌋ : ℤ) : ℚ) := by
  rw [jsRound, ratAdd_eq, Rat.floor_def', ← Rat.floor_def]
  norm_num

/-- Does `hay` start with `pat` (char lists)? -/
def leadMatch : List Char → List Char → Bool
  | [], _ => true
  | _ :: _, [] => false
  | p :: ps, c :: cs => p == c && leadMatch ps cs

/-- Does `hay` contain `pat` as a contiguous run (char lists)? -/
def hasSub (pat : List Char) : List Char → Bool
  | [] => leadMatch pat []
  | c :: cs => leadMatch pat (c :: cs) || hasSub pat cs

/-- JS `s.includes(pat)`. -/
def jsIncludes (s pat : String) : Bool := hasSub pat.toList s.toList

/-- JS `s.toLowerCase()` (char-by-char, so that it evaluates by reduction). -/
def lowerStr (s : String) : String := String.mk (s.data.map Char.toLower)

structure GeoCoord where
  latitude : ℚ
  longitude : ℚ
deriving DecidableEq

structure LocationInfo where
  address : String
  city : String
  distance : String
  landmark : String
  coordinates : GeoCoord
deriving DecidableEq

structure Sustainability where
  certified : Bool
  level : ℚ
deriving DecidableEq

/-- The accommodation record constructed by the server (both on the
upstream-API path and in the mock fallback).  Fields the transformation
may leave `undefined` are `Option`s. -/
structure Accommodation where
  id : Option String
  name : Option String
  type : String
  destination : String
  pricePerNight : ℚ
  totalPrice : ℚ
  currency : String
  images : List (Option String)
  mainImage : String
  rating : ℚ
  reviewScore : String
  reviewCount : ℚ
  location : LocationInfo
  facilities : List String
  cancellation : String
  breakfast : String
  sustainability : Sustainability
deriving DecidableEq

/-- The parsed arguments of an `accomodations.search` tool call
(the output of the zod parser). -/
structure SearchArgs where
  destination : String
  coordinates : Option GeoCoord
  checkIn : Option String
  checkOut : Option String
  nights : Option ℚ
  adults : Option ℚ
  children : Option ℚ
  rooms : Option ℚ
  minPrice : Option ℚ
  maxPrice : Option ℚ
  accommodationType : Option String
  facilities : Option (List String)
  landmark : Option String
  rating : Option ℚ
deriving DecidableEq

/-- The ten-element lodging-type enumeration of the input schema. -/
def typeEnum : List String :=
  ["hotel", "apartment", "hostel", "guest-house", "vacation-home",
   "resort", "villa", "chalet", "bed-and-breakfast", "lodge"]

/-- The `typeMap` object literal of `determineAccommodationType`. -/
def typeMap : List (String × String) :=
  [("hotel", "hotel"), ("apartment", "apartment"), ("hostel", "hostel"),
   ("guest house", "guest-house"), ("vacation home", "vacation-home"),
   ("resort", "resort"), ("villa", "villa"), ("chalet", "chalet"),
   ("bed and breakfast", "bed-and-breakfast"), ("lodge", "lodge")]

/-- `determineAccommodationType`: `typeMap[type.toLowerCase()] || "hotel"`. -/
def determineAccommodationType (t : String) : String :=
  match typeMap.find? (fun p => p.1 == lowerStr t) with
  | some p => p.2
  | none => "hotel"

/-- `getReviewScore`: the rating-to-label mapping (9.5, 9.0, 8.5, 8.0, 7.5). -/
def getReviewScore (score : ℚ) : String :=
  if mkRat 95 10 ≤ score then "Exceptional"
  else if mkRat 90 10 ≤ score then "Superb"
  else if mkRat 85 10 ≤ score then "Wonderful"
  else if mkRat 80 10 ≤ score then "Very Good"
  else if mkRat 75 10 ≤ score then "Good"
  else "Pleasant"

/-- `extractFacilities`: when the raw value is an array, keep the truthy
entries; otherwise return the default pair. -/
def extractFacilities : Option (List String) → List String
  | some l => l.filter (fun f => !(f = ""))
  | none => ["wifi", "parking"]

/-- One raw hotel object of the upstream `searchHotels` response; optional
fields model properties that may be absent.  Fields reached through
`hotel.property` carry a `prop_` marker. -/
structure RawHotel where
  hotel_id : Option String
  id : Option String
  prop_name : Option String
  hotel_name : Option String
  prop_accommodationType : Option String
  prop_grossPriceValue : Option ℚ
  min_total_price : Option ℚ
  prop_photoUrls : Option (List String)
  max_photo_url : Option String
  prop_reviewScore : Option ℚ
  review_score : Option ℚ
  prop_reviewCount : Option ℚ
  review_nr : Option ℚ
  prop_address : Option String
  prop_distance : Option String
  distance : Option ℚ
  prop_landmark : Option String
  prop_coordinates : Option GeoCoord
  prop_facilities : Option (List String)
  hotel_facilities : Option (List String)
  prop_freeCancellation : Option Bool
  prop_mealPlan : Option String
  prop_sustainabilityLevel : Option ℚ
deriving DecidableEq

/-- The raw nightly price: `grossPrice?.value || min_total_price || 0`. -/
def rawPrice (h : RawHotel) : ℚ := orRat2 h.prop_grossPriceValue h.min_total_price 0

/-- The rating used for `rating` and `reviewScore`:
`property?.reviewScore || review_score || 8.0`. -/
def ratingVal (h : RawHotel) : ℚ := orRat2 h.prop_reviewScore h.review_score 8

/-- `args.nights || 3`. -/
def nightsOr3 (nights : Option ℚ) : ℚ := orRatD nights 3

/-- The per-hotel transformation of the upstream response
(`server.ts`, the `.map` of `searchAccommodationsAPI`). -/
def transformHotel (args : SearchArgs) (h : RawHotel) : Accommodation :=
  { id := jsOrStrOpt h.hotel_id h.id
    name := jsOrStrOpt h.prop_name h.hotel_name
    type := determineAccommodationType (jsOrStr h.prop_accommodationType "hotel")
    destination := args.destination
    pricePerNight := jsRound (rawPrice h)
    totalPrice := jsRound (ratMul (rawPrice h) (nightsOr3 args.nights))
    currency := "USD"
    images := (match h.prop_photoUrls with
      | some l => l.map some
      | none => [h.max_photo_url])
    mainImage := jsOrStr2 (h.prop_photoUrls.bind List.head?) h.max_photo_url
      "https://via.placeholder.com/800x600"
    rating := ratingVal h
    reviewScore := getReviewScore (ratingVal h)
    reviewCount := orRat2 h.prop_reviewCount h.review_nr 0
    location :=
      { address := jsOrStr h.prop_address "N/A"
        city := args.destination
        distance := (match truthyStr h.prop_distance with
          | some d => d
          | none => toString (orRatD h.distance 0) ++ " km from city center")
        landmark := jsOrStr h.prop_landmark "City center"
        coordinates := h.prop_coordinates.getD { latitude := 0, longitude := 0 } }
    facilities := (match h.prop_facilities with
      | some l => l
      | none => extractFacilities h.hotel_facilities)
    cancellation := (match h.prop_freeCancellation with
      | some true => "Free cancellation"
      | _ => "Non-refundable")
    breakfast := jsOrStr h.prop_mealPlan "Breakfast options available"
    sustainability :=
      { certified := (match h.prop_sustainabilityLevel with
          | some v => decide (0 < v)
          | none => false)
        level := orRatD h.prop_sustainabilityLevel 0 } }

/-- `if (params.accommodationType) filtered = filtered.filter(acc.type === ...)`. -/
def filterTypeBy (getT : α → String) (o : Option String) (l : List α) : List α :=
  match truthyStr o with
  | some t => l.filter (fun a => getT a == t)
  | none => l

/-- `if (params.minPrice) filtered = filtered.filter(acc.pricePerNight >= ...)`. -/
def filterMinBy (getP : α → ℚ) (o : Option ℚ) (l : List α) : List α :=
  match truthyRat o with
  | some m => l.filter (fun a => decide (m ≤ getP a))
  | none => l

/-- `if (params.maxPrice) filtered = filtered.filter(acc.pricePerNight <= ...)`. -/
def filterMaxBy (getP : α → ℚ) (o : Option ℚ) (l : List α) : List α :=
  match truthyRat o with
  | some m => l.filter (fun a => decide (getP a ≤ m))
  | none => l

/-- `if (params.rating) filtered = filtered.filter(acc.rating >= ...)`. -/
def filterRatingBy (getR : α → ℚ) (o : Option ℚ) (l : List α) : List α :=
  match truthyRat o with
  | some r => l.filter (fun a => decide (r ≤ getR a))
  | none => l

/-- `if (params.facilities && params.facilities.length > 0) ...` with the
facility-matching predicate of the call site. -/
def filterFacilitiesBy (getF : α → List String) (matcher : String → String → Bool)
    (o : Option (List String)) (l : List α) : List α :=
  match o with
  | some fs =>
    if 0 < fs.length then
      l.filter (fun a => fs.all (fun fac => (getF a).any (fun f => matcher f fac)))
    else l
  | none => l

/-- Facility match on the upstream-API path:
`f.toLowerCase().includes(facility.toLowerCase())`. -/
def apiFacMatch (f fac : String) : Bool := jsIncludes (lowerStr f) (lowerStr fac)

/-- Facility match on the mock path: `f.includes(facility.toLowerCase())`. -/
def mockFacMatch (f fac : String) : Bool := jsIncludes f (lowerStr fac)

/-- The filter block of `searchAccommodationsAPI` (lines 356-377). -/
def applyFilters (args : SearchArgs) (l : List Accommodation) : List Accommodation :=
  filterFacilitiesBy Accommodation.facilities apiFacMatch args.facilities
    (filterRatingBy Accommodation.rating args.rating
      (filterMaxBy Accommodation.pricePerNight args.maxPrice
        (filterMinBy Accommodation.pricePerNight args.minPrice
          (filterTypeBy Accommodation.type args.accommodationType l))))

/-- The filter block applied to the mock data in the tool handler
(lines 659-688); it lowercases only the requested facility. -/
def applyMockFilters (args : SearchArgs) (l : List Accommodation) : List Accommodation :=
  filterFacilitiesBy Accommodation.facilities mockFacMatch args.facilities
    (filterRatingBy Accommodation.rating args.rating
      (filterMaxBy Accommodation.pricePerNight args.maxPrice
        (filterMinBy Accommodation.pricePerNight args.minPrice
          (filterTypeBy Accommodation.type args.accommodationType l))))

/-- `(hotelsData.data?.hotels || []).slice(0, 10).map(...)` then the filters. -/
def apiAccommodations (args : SearchArgs) (hotels : List RawHotel) : List Accommodation :=
  applyFilters args ((hotels.take 10).map (transformHotel args))

/-- The possible outcomes of the two upstream HTTP calls, as observed by
`searchAccommodationsAPI`: missing API key, a non-2xx destination search,
an empty destination list, a non-2xx hotel search, a thrown
network/parse error, or a successful hotel list. -/
inductive UpstreamOutcome where
  | noKey
  | destSearchHttpError
  | destSearchEmpty
  | hotelsHttpError
  | netError
  | ok (hotels : List RawHotel)
deriving DecidableEq

/-- `searchAccommodationsAPI`: every non-success outcome returns `null`
(the catch block included); success returns the transformed, filtered list. -/
def searchAccommodationsAPI (args : SearchArgs) (o : UpstreamOutcome) :
    Option (List Accommodation) :=
  match o with
  | .noKey => none
  | .destSearchHttpError => none
  | .destSearchEmpty => none
  | .hotelsHttpError => none
  | .netError => none
  | .ok hotels => some (apiAccommodations args hotels)

/-- Placeholder image URL used throughout the mock data. -/
def placeholderUrl : String := "https://via.placeholder.com/800x600"

/-- Default coordinates of the mock records. -/
def mockCoords : GeoCoord := { latitude := mkRat 407128 10000, longitude := mkRat (-74006) 1000 }

/-- Mock record `b1` ("Grand Hotel & Spa") of the tool handler. -/
def mockB1 (args : SearchArgs) : Accommodation :=
  { id := some "b1"
    name := some "Grand Hotel & Spa"
    type := "hotel"
    destination := args.destination
    pricePerNight := 185
    totalPrice := ratMul (nightsOr3 args.nights) 185
    currency := "USD"
    images := [some placeholderUrl, some placeholderUrl]
    mainImage := placeholderUrl
    rating := mkRat 89 10
    reviewScore := "Excellent"
    reviewCount := 2847
    location :=
      { address := "123 Main Street"
        city := args.destination
        distance := "0.5 km from city center"
        landmark := jsOrStr args.landmark "Central Station"
        coordinates := args.coordinates.getD mockCoords }
    facilities := ["free-wifi", "pool", "spa", "gym", "restaurant", "parking",
      "airport-shuttle"]
    cancellation := "Free cancellation until 24 hours before check-in"
    breakfast := "Breakfast included"
    sustainability := { certified := true, level := 2 } }

/-- Mock record `b2` ("Cozy Downtown Apartment") of the tool handler. -/
def mockB2 (args : SearchArgs) : Accommodation :=
  { id := some "b2"
    name := some "Cozy Downtown Apartment"
    type := "apartment"
    destination := args.destination
    pricePerNight := 120
    totalPrice := ratMul (nightsOr3 args.nights) 120
    currency := "USD"
    images := [some placeholderUrl]
    mainImage := placeholderUrl
    rating := mkRat 92 10
    reviewScore := "Superb"
    reviewCount := 456
    location :=
      { address := "45 Park Avenue"
        city := args.destination
        distance := "0.2 km from city center"
        landmark := jsOrStr args.landmark "Main Square"
        coordinates := args.coordinates.getD mockCoords }
    facilities := ["free-wifi", "kitchen", "parking", "family-friendly",
      "washing-machine"]
    cancellation := "Free cancellation until 3 days before check-in"
    breakfast := "Self-catering"
    sustainability := { certified := false, level := 0 } }

/-- Mock record `b3` ("Luxury Beach Resort") of the tool handler. -/
def mockB3 (args : SearchArgs) : Accommodation :=
  { id := some "b3"
    name := some "Luxury Beach Resort"
    type := "resort"
    destination := args.destination
    pricePerNight := 389
    totalPrice := ratMul (nightsOr3 args.nights) 389
    currency := "USD"
    images := [some placeholderUrl, some placeholderUrl, some placeholderUrl]
    mainImage := placeholderUrl
    rating := mkRat 95 10
    reviewScore := "Exceptional"
    reviewCount := 1523
    location :=
      { address := "789 Beachfront Drive"
        city := args.destination
        distance := "3.2 km from city center"
        landmark := jsOrStr args.landmark "Beach"
        coordinates := args.coordinates.getD mockCoords }
    facilities := ["free-wifi", "pool", "spa", "gym", "restaurant", "beach-access",
      "all-inclusive", "kids-club", "tennis-court"]
    cancellation := "Non-refundable"
    breakfast := "All-inclusive (all meals included)"
    sustainability := { certified := true, level := 3 } }

/-- The hard-coded `mockAccommodations` literal of the tool handler. -/
def mockAccommodations (args : SearchArgs) : List Accommodation :=
  [mockB1 args, mockB2 args, mockB3 args]

/-- The result of an `accomodations.search` tool call: the text content plus
the fields of `structuredContent`. -/
structure SearchToolResult where
  contentText : String
  destination : String
  checkIn : Option String
  checkOut : Option String
  nights : ℚ
  adults : ℚ
  children : ℚ
  rooms : ℚ
  accommodations : List Accommodation
  totalResults : Nat
  filterAccommodationType : Option String
  filterFacilities : Option (List String)
  filterMinPrice : Option ℚ
  filterMaxPrice : Option ℚ
  filterRating : Option ℚ
  usingMockData : Bool
deriving DecidableEq

/-- The `accomodations.search` branch of the `CallToolRequestSchema` handler:
call the upstream API, fall back to the filtered mock data when it returns
`null` or an empty list, and build the result. -/
def handleSearch (args : SearchArgs) (o : UpstreamOutcome) : SearchToolResult :=
  let api := searchAccommodationsAPI args o
  let accommodations :=
    match api with
    | none => applyMockFilters args (mockAccommodations args)
    | some l => if l.length = 0 then applyMockFilters args (mockAccommodations args) else l
  { contentText := "Found " ++ toString accommodations.length
      ++ " accommodation options in " ++ args.destination
      ++ (match truthyStr args.checkIn with | some c => " from " ++ c | none => "")
      ++ (match truthyStr args.checkOut with | some c => " to " ++ c | none => "")
      ++ "."
      ++ (match o with
          | .noKey => " (Using mock data - set RAPIDAPI_KEY for real results)"
          | _ => "")
    destination := args.destination
    checkIn := args.checkIn
    checkOut := args.checkOut
    nights := nightsOr3 args.nights
    adults := orRatD args.adults 2
    children := orRatD args.children 0
    rooms := orRatD args.rooms 1
    accommodations := accommodations
    totalResults := accommodations.length
    filterAccommodationType := args.accommodationType
    filterFacilities := args.facilities
    filterMinPrice := args.minPrice
    filterMaxPrice := args.maxPrice
    filterRating := args.rating
    usingMockData := (match o with | .noKey => true | _ => false) }

/-- The full `CallToolRequestSchema` handler: the search tool returns a
normal result; an unknown tool name throws. -/
def callTool (toolName : String) (args : SearchArgs) (o : UpstreamOutcome) :
    Except String SearchToolResult :=
  if toolName = "accomodations.search" then .ok (handleSearch args o)
  else .error ("Unknown tool: " ++ toolName)

/-- The accommodation shape of the Cloudflare Worker's mock data
(a reduced field set). -/
structure WorkerAccommodation where
  id : String
  name : String
  type : String
  destination : String
  pricePerNight : ℚ
  totalPrice : ℚ
  currency : String
  mainImage : String
  rating : ℚ
  reviewScore : String
  reviewCount : ℚ
  distance : String
  facilities : List String
  cancellation : String
  sustainability : Sustainability
deriving DecidableEq

/-- Worker mock record `b1`. -/
def workerB1 (args : SearchArgs) : WorkerAccommodation :=
  { id := "b1", name := "Grand Hotel & Spa", type := "hotel"
    destination := args.destination
    pricePerNight := 185, totalPrice := ratMul (nightsOr3 args.nights) 185
    currency := "USD", mainImage := placeholderUrl
    rating := mkRat 89 10, reviewScore := "Excellent", reviewCount := 2847
    distance := "0.5 km from city center"
    facilities := ["free-wifi", "pool", "spa", "gym", "restaurant", "parking"]
    cancellation := "Free cancellation until 24 hours before check-in"
    sustainability := { certified := true, level := 2 } }

/-- Worker mock record `b2`. -/
def workerB2 (args : SearchArgs) : WorkerAccommodation :=
  { id := "b2", name := "Cozy Downtown Apartment", type := "apartment"
    destination := args.destination
    pricePerNight := 120, totalPrice := ratMul (nightsOr3 args.nights) 120
    currency := "USD", mainImage := placeholderUrl
    rating := mkRat 92 10, reviewScore := "Superb", reviewCount := 456
    distance := "0.2 km from city center"
    facilities := ["free-wifi", "kitchen", "parking", "family-friendly"]
    cancellation := "Free cancellation until 3 days before check-in"
    sustainability := { certified := false, level := 0 } }

/-- Worker mock record `b3`. -/
def workerB3 (args : SearchArgs) : WorkerAccommodation :=
  { id := "b3", name := "Luxury Beach Resort", type := "resort"
    destination := args.destination
    pricePerNight := 389, totalPrice := ratMul (nightsOr3 args.nights) 389
    currency := "USD", mainImage := placeholderUrl
    rating := mkRat 95 10, reviewScore := "Exceptional", reviewCount := 1523
    distance := "3.2 km from city center"
    facilities := ["free-wifi", "pool", "spa", "beach-access", "all-inclusive"]
    cancellation := "Non-refundable"
    sustainability := { certified := true, level := 3 } }

/-- The Worker's `mockAccommodations` literal. -/
def workerMocks (args : SearchArgs) : List WorkerAccommodation :=
  [workerB1 args, workerB2 args, workerB3 args]

/-- The filter block of the Worker's `handleToolCall`: type, minPrice,
maxPrice and rating only — it never filters on facilities. -/
def workerApplyFilters (args : SearchArgs) (l : List WorkerAccommodation) :
    List WorkerAccommodation :=
  filterRatingBy WorkerAccommodation.rating args.rating
    (filterMaxBy WorkerAccommodation.pricePerNight args.maxPrice
      (filterMinBy WorkerAccommodation.pricePerNight args.minPrice
        (filterTypeBy WorkerAccommodation.type args.accommodationType l)))

/-- The result of the Worker's `handleToolCall`. -/
structure WorkerResult where
  contentText : String
  destination : String
  checkIn : Option String
  checkOut : Option String
  nights : ℚ
  accommodations : List WorkerAccommodation
  totalResults : Nat
  filterAccommodationType : Option String
  filterFacilities : Option (List String)
  filterMinPrice : Option ℚ
  filterMaxPrice : Option ℚ
  filterRating : Option ℚ
deriving DecidableEq

/-- The Worker's `handleToolCall` on parsed arguments. -/
def handleToolCallW (args : SearchArgs) : WorkerResult :=
  let filteredAccommodations := workerApplyFilters args (workerMocks args)
  { contentText := "Found " ++ toString filteredAccommodations.length
      ++ " accommodations in " ++ args.destination
    destination := args.destination
    checkIn := args.checkIn
    checkOut := args.checkOut
    nights := nightsOr3 args.nights
    accommodations := filteredAccommodations
    totalResults := filteredAccommodations.length
    filterAccommodationType := args.accommodationType
    filterFacilities := args.facilities
    filterMinPrice := args.minPrice
    filterMaxPrice := args.maxPrice
    filterRating := args.rating }

/-- Outcome of a POST to the message endpoint. -/
inductive PostOutcome where
  | respond (status : Nat) (body : String)
  | dispatched (transport : Nat)
deriving DecidableEq

/-- `handlePostMessage`: `url.searchParams.get("sessionId")` is `sidParam`;
`!sessionId` (absent or empty) gives 400, an unknown id gives 404, and a
known id dispatches to the stored transport.  The session map is modelled
as a lookup function, transports by numeric identity. -/
def handlePostMessage (sessions : String → Option Nat) (sidParam : Option String) :
    PostOutcome :=
  match truthyStr sidParam with
  | none => .respond 400 "Missing sessionId query parameter"
  | some s =>
    match sessions s with
    | none => .respond 404 "Unknown session"
    | some t => .dispatched t

/-- Shared state of the HTTP server: the session map and, as ghost state,
which session ids currently denote an open SSE connection. -/
structure SessState where
  sessions : String → Option Nat
  openConn : String → Bool

/-- The session-relevant events of `handleSseRequest`: an SSE request whose
`server.connect` succeeds or fails, and a transport `onclose` callback. -/
inductive SessEvent where
  | sseConnect (sid : String) (transport : Nat) (ok : Bool)
  | transportClose (sid : String)

/-- One step of session bookkeeping: `handleSseRequest` sets the map entry
and, when `connect` fails, deletes it again; `onclose` deletes it. -/
def sessStep (st : SessState) (e : SessEvent) : SessState :=
  match e with
  | .sseConnect sid t ok =>
    if ok then
      { sessions := fun s => if s = sid then some t else st.sessions s
        openConn := fun s => if s = sid then true else st.openConn s }
    else
      { sessions := fun s => if s = sid then none else st.sessions s
        openConn := fun s => if s = sid then false else st.openConn s }
  | .transportClose sid =>
      { sessions := fun s => if s = sid then none else st.sessions s
        openConn := fun s => if s = sid then false else st.openConn s }

/-- The server starts with no sessions and no open connections. -/
def sessInit : SessState :=
  { sessions := fun _ => none, openConn := fun _ => false }

/-- The session state after a sequence of events. -/
def sessRun (es : List SessEvent) : SessState := es.foldl sessStep sessInit

/-- Test fixture: arguments with only the required `destination`. -/
def emptyArgs (dest : String) : SearchArgs :=
  { destination := dest, coordinates := none, checkIn := none, checkOut := none,
    nights := none, adults := none, children := none, rooms := none,
    minPrice := none, maxPrice := none, accommodationType := none,
    facilities := none, landmark := none, rating := none }

/-- Test fixture: a raw hotel with every field absent. -/
def emptyHotel : RawHotel :=
  { hotel_id := none, id := none, prop_name := none, hotel_name := none,
    prop_accommodationType := none, prop_grossPriceValue := none,
    min_total_price := none, prop_photoUrls := none, max_photo_url := none,
    prop_reviewScore := none, review_score := none, prop_reviewCount := none,
    review_nr := none, prop_address := none, prop_distance := none,
    distance := none, prop_landmark := none, prop_coordinates := none,
    prop_facilities := none, hotel_facilities := none,
    prop_freeCancellation := none, prop_mealPlan := none,
    prop_sustainabilityLevel := none }

theorem mem_filterTypeBy {α : Type} (getT : α → String) (o : Option String)
    (l : List α) (a : α) (h : a ∈ filterTypeBy getT o l) :
    a ∈ l ∧ ∀ t, truthyStr o = some t → getT a = t := by
  unfold filterTypeBy at h
  split at h
  next t e =>
    have hm := List.mem_filter.mp h
    exact ⟨hm.1, fun t' ht' => by rw [e] at ht'; cases ht'; exact eq_of_beq hm.2⟩
  next e =>
    exact ⟨h, fun t' ht' => by rw [e] at ht'; cases ht'⟩

theorem mem_filterMinBy {α : Type} (getP : α → ℚ) (o : Option ℚ)
    (l : List α) (a : α) (h : a ∈ filterMinBy getP o l) :
    a ∈ l ∧ ∀ m, truthyRat o = some m → m ≤ getP a := by
  unfold filterMinBy at h
  split at h
  next m e =>
    have hm := List.mem_filter.mp h
    exact ⟨hm.1, fun m' hm' => by
      rw [e] at hm'; cases hm'; exact of_decide_eq_true hm.2⟩
  next e =>
    exact ⟨h, fun m' hm' => by rw [e] at hm'; cases hm'⟩

theorem mem_filterMaxBy {α : Type} (getP : α → ℚ) (o : Option ℚ)
    (l : List α) (a : α) (h : a ∈ filterMaxBy getP o l) :
    a ∈ l ∧ ∀ m, truthyRat o = some m → getP a ≤ m := by
  unfold filterMaxBy at h
  split at h
  next m e =>
    have hm := List.mem_filter.mp h
    exact ⟨hm.1, fun m' hm' => by
      rw [e] at hm'; cases hm'; exact of_decide_eq_true hm.2⟩
  next e =>
    exact ⟨h, fun m' hm' => by rw [e] at hm'; cases hm'⟩

theorem mem_filterRatingBy {α : Type} (getR : α → ℚ) (o : Option ℚ)
    (l : List α) (a : α) (h : a ∈ filterRatingBy getR o l) :
    a ∈ l ∧ ∀ r, truthyRat o = some r → r ≤ getR a := by
  unfold filterRatingBy at h
  split at h
  next r e =>
    have hm := List.mem_filter.mp h
    exact ⟨hm.1, fun r' hr' => by
      rw [e] at hr'; cases hr'; exact of_decide_eq_true hm.2⟩
  next e =>
    exact ⟨h, fun r' hr' => by rw [e] at hr'; cases hr'⟩

theorem mem_filterFacilitiesBy {α : Type} (getF : α → List String)
    (mt : String → String → Bool) (o : Option (List String))
    (l : List α) (a : α) (h : a ∈ filterFacilitiesBy getF mt o l) :
    a ∈ l ∧ ∀ fs, o = some fs → fs ≠ [] →
      ∀ fac ∈ fs, (getF a).any (fun f => mt f fac) = true := by
  unfold filterFacilitiesBy at h
  cases o with
  | some fs =>
    dsimp only at h
    by_cases hl : 0 < fs.length
    · rw [if_pos hl] at h
      have hm := List.mem_filter.mp h
      refine ⟨hm.1, ?_⟩
      intro fs' e' _ fac hfac
      cases e'
      exact List.all_eq_true.mp hm.2 fac hfac
    · rw [if_neg hl] at h
      refine ⟨h, ?_⟩
      intro fs' e' hne fac hfac
      cases e'
      exact absurd (List.eq_nil_of_length_eq_zero (Nat.eq_zero_of_not_pos hl)) hne
  | none =>
    exact ⟨h, fun fs' e' => by cases e'⟩

/-- Conjunction of the four scalar filter conditions, for a record with the
given type, nightly price and rating, under the given arguments. -/
def ProvidedFiltersHold (args : SearchArgs) (ty : String) (price rat : ℚ) : Prop :=
  (∀ t, truthyStr args.accommodationType = some t → ty = t) ∧
  (∀ m, truthyRat args.minPrice = some m → m ≤ price) ∧
  (∀ m, truthyRat args.maxPrice = some m → price ≤ m) ∧
  (∀ r, truthyRat args.rating = some r → r ≤ rat)

theorem mem_applyFilters (args : SearchArgs) (l : List Accommodation)
    (acc : Accommodation) (h : acc ∈ applyFilters args l) :
    acc ∈ l ∧ ProvidedFiltersHold args acc.type acc.pricePerNight acc.rating ∧
    (∀ fs, args.facilities = some fs → fs ≠ [] →
      ∀ fac ∈ fs, acc.facilities.any (fun f => apiFacMatch f fac) = true) := by
  unfold applyFilters at h
  obtain ⟨h4, hfac⟩ := mem_filterFacilitiesBy _ _ _ _ _ h
  obtain ⟨h3, hrat⟩ := mem_filterRatingBy _ _ _ _ h4
  obtain ⟨h2, hmax⟩ := mem_filterMaxBy _ _ _ _ h3
  obtain ⟨h1, hmin⟩ := mem_filterMinBy _ _ _ _ h2
  obtain ⟨h0, hty⟩ := mem_filterTypeBy _ _ _ _ h1
  exact ⟨h0, ⟨hty, hmin, hmax, hrat⟩, hfac⟩

theorem mem_applyMockFilters (args : SearchArgs) (l : List Accommodation)
    (acc : Accommodation) (h : acc ∈ applyMockFilters args l) :
    acc ∈ l ∧ ProvidedFiltersHold args acc.type acc.pricePerNight acc.rating ∧
    (∀ fs, args.facilities = some fs → fs ≠ [] →
      ∀ fac ∈ fs, acc.facilities.any (fun f => mockFacMatch f fac) = true) := by
  unfold applyMockFilters at h
  obtain ⟨h4, hfac⟩ := mem_filterFacilitiesBy _ _ _ _ _ h
  obtain ⟨h3, hrat⟩ := mem_filterRatingBy _ _ _ _ h4
  obtain ⟨h2, hmax⟩ := mem_filterMaxBy _ _ _ _ h3
  obtain ⟨h1, hmin⟩ := mem_filterMinBy _ _ _ _ h2
  obtain ⟨h0, hty⟩ := mem_filterTypeBy _ _ _ _ h1
  exact ⟨h0, ⟨hty, hmin, hmax, hrat⟩, hfac⟩

theorem mem_workerApplyFilters (args : SearchArgs) (l : List WorkerAccommodation)
    (acc : WorkerAccommodation) (h : acc ∈ workerApplyFilters args l) :
    acc ∈ l ∧ ProvidedFiltersHold args acc.type acc.pricePerNight acc.rating := by
  unfold workerApplyFilters at h
  obtain ⟨h3, hrat⟩ := mem_filterRatingBy _ _ _ _ h
  obtain ⟨h2, hmax⟩ := mem_filterMaxBy _ _ _ _ h3
  obtain ⟨h1, hmin⟩ := mem_filterMinBy _ _ _ _ h2
  obtain ⟨h0, hty⟩ := mem_filterTypeBy _ _ _ _ h1
  exact ⟨h0, hty, hmin, hmax, hrat⟩

theorem handleSearch_accommodations (args : SearchArgs) (o : UpstreamOutcome) :
    (handleSearch args o).accommodations =
      match searchAccommodationsAPI args o with
      | none => applyMockFilters args (mockAccommodations args)
      | some l =>
        if l.length = 0 then applyMockFilters args (mockAccommodations args) else l := rfl

theorem length_filterTypeBy_le {α : Type} (getT : α → String) (o : Option String)
    (l : List α) : (filterTypeBy getT o l).length ≤ l.length := by
  unfold filterTypeBy
  split
  · exact List.length_filter_le _ _
  · exact le_refl _

theorem length_filterMinBy_le {α : Type} (getP : α → ℚ) (o : Option ℚ)
    (l : List α) : (filterMinBy getP o l).length ≤ l.length := by
  unfold filterMinBy
  split
  · exact List.length_filter_le _ _
  · exact le_refl _

theorem length_filterMaxBy_le {α : Type} (getP : α → ℚ) (o : Option ℚ)
    (l : List α) : (filterMaxBy getP o l).length ≤ l.length := by
  unfold filterMaxBy
  split
  · exact List.length_filter_le _ _
  · exact le_refl _

theorem length_filterRatingBy_le {α : Type} (getR : α → ℚ) (o : Option ℚ)
    (l : List α) : (filterRatingBy getR o l).length ≤ l.length := by
  unfold filterRatingBy
  split
  · exact List.length_filter_le _ _
  · exact le_refl _

theorem length_filterFacilitiesBy_le {α : Type} (getF : α → List String)
    (mt : String → String → Bool) (o : Option (List String)) (l : List α) :
    (filterFacilitiesBy getF mt o l).length ≤ l.length := by
  unfold filterFacilitiesBy
  cases o with
  | some fs =>
    dsimp only
    split
    · exact List.length_filter_le _ _
    · exact le_refl _
  | none => exact le_refl _

theorem length_applyFilters_le (args : SearchArgs) (l : List Accommodation) :
    (applyFilters args l).length ≤ l.length := by
  unfold applyFilters
  calc (filterFacilitiesBy Accommodation.facilities apiFacMatch args.facilities
          (filterRatingBy Accommodation.rating args.rating
            (filterMaxBy Accommodation.pricePerNight args.maxPrice
              (filterMinBy Accommodation.pricePerNight args.minPrice
                (filterTypeBy Accommodation.type args.accommodationType l))))).length
      ≤ (filterRatingBy Accommodation.rating args.rating
          (filterMaxBy Accommodation.pricePerNight args.maxPrice
            (filterMinBy Accommodation.pricePerNight args.minPrice
              (filterTypeBy Accommodation.type args.accommodationType l)))).length :=
        length_filterFacilitiesBy_le _ _ _ _
    _ ≤ (filterMaxBy Accommodation.pricePerNight args.maxPrice
          (filterMinBy Accommodation.pricePerNight args.minPrice
            (filterTypeBy Accommodation.type args.accommodationType l))).length :=
        length_filterRatingBy_le _ _ _
    _ ≤ (filterMinBy Accommodation.pricePerNight args.minPrice
          (filterTypeBy Accommodation.type args.accommodationType l)).length :=
        length_filterMaxBy_le _ _ _
    _ ≤ (filterTypeBy Accommodation.type args.accommodationType l).length :=
        length_filterMinBy_le _ _ _
    _ ≤ l.length := length_filterTypeBy_le _ _ _

theorem applyFilters_nil (args : SearchArgs) : applyFilters args [] = [] := by
  have h := length_applyFilters_le args []
  simp only [List.length_nil, Nat.le_zero] at h
  exact List.eq_nil_of_length_eq_zero h

/-- Outcomes on which `searchAccommodationsAPI` returns `null`. -/
def isFailure : UpstreamOutcome → Bool
  | .ok _ => false
  | _ => true

theorem searchAPI_none_of_failure (args : SearchArgs) (o : UpstreamOutcome)
    (h : isFailure o = true) : searchAccommodationsAPI args o = none := by
  cases o <;> first | rfl | simp [isFailure] at h

/-- No truthy filter argument is provided. -/
def NoTruthyFilters (args : SearchArgs) : Prop :=
  truthyStr args.accommodationType = none ∧ truthyRat args.minPrice = none ∧
  truthyRat args.maxPrice = none ∧ truthyRat args.rating = none ∧
  (∀ fs, args.facilities = some fs → fs = [])

theorem applyMockFilters_id (args : SearchArgs) (l : List Accommodation)
    (h : NoTruthyFilters args) : applyMockFilters args l = l := by
  obtain ⟨hty, hmin, hmax, hrat, hfac⟩ := h
  unfold applyMockFilters filterTypeBy filterMinBy filterMaxBy filterRatingBy
    filterFacilitiesBy
  rw [hty, hmin, hmax, hrat]
  cases e : args.facilities with
  | none => rfl
  | some fs =>
    dsimp only
    rw [hfac fs e]
    rfl

theorem sessStep_inv (st : SessState) (e : SessEvent)
    (h : ∀ s t, st.sessions s = some t → st.openConn s = true) :
    ∀ s t, (sessStep st e).sessions s = some t → (sessStep st e).openConn s = true := by
  intro s t
  cases e with
  | sseConnect sid tr ok =>
    cases ok with
    | false =>
      by_cases hs : s = sid <;> simp only [sessStep, if_pos, if_neg, hs,
        if_true, if_false, Bool.false_eq_true, ite_true, ite_false]
      · intro hc; cases hc
      · exact h s t
    | true =>
      by_cases hs : s = sid <;> simp only [sessStep, hs, ite_true, ite_false]
      · intro _; trivial
      · exact h s t
  | transportClose sid =>
    by_cases hs : s = sid <;> simp only [sessStep, hs, ite_true, ite_false]
    · intro hc; cases hc
    · exact h s t

theorem sessFoldl_inv (es : List SessEvent) : ∀ (st : SessState),
    (∀ s t, st.sessions s = some t → st.openConn s = true) →
    ∀ s t, (es.foldl sessStep st).sessions s = some t →
      (es.foldl sessStep st).openConn s = true := by
  induction es with
  | nil => intro st h; exact h
  | cons e es ih =>
    intro st h
    exact ih (sessStep st e) (sessStep_inv st e h)

theorem handlePostMessage_dispatched (sessions : String → Option Nat)
    (sidParam : Option String) (s : String) (t : Nat)
    (hs : truthyStr sidParam = some s)
    (h : handlePostMessage sessions sidParam = .dispatched t) :
    sessions s = some t := by
  unfold handlePostMessage at h
  rw [hs] at h
  dsimp only at h
  cases e : sessions s with
  | none => rw [e] at h; cases h
  | some t' => rw [e] at h; cases h; rfl

theorem floor_one_half : ⌊(1/2 : ℚ)⌋ = 0 := by
  rw [Int.floor_eq_zero_iff]
  constructor <;> norm_num

theorem jsRound_intCast (z : ℤ) : jsRound ((z : ℚ)) = ((z : ℚ)) := by
  have hfl : ⌊((z : ℚ)) + 1/2⌋ = z := by
    rw [add_comm, Int.floor_add_int, floor_one_half, zero_add]
  rw [jsRound_eq, hfl]

theorem apiAccommodations_nil (args : SearchArgs) : apiAccommodations args [] = [] := by
  unfold apiAccommodations
  rw [show (([] : List RawHotel).take 10).map (transformHotel args) = [] from rfl]
  exact applyFilters_nil args

/-- C1 (amended): in the Node server's search handler, every accommodation in
the returned list satisfies each provided filter whose value is truthy (type
equality, minimum/maximum nightly price, minimum rating and, for a non-empty
facilities list, a facility match under the matcher of the path that produced
the record); in the Cloudflare Worker variant the type, price and rating
filters hold, but the facilities filter is never applied there. -/
theorem c1_filters_amended :
    (∀ (args : SearchArgs) (o : UpstreamOutcome) (acc : Accommodation),
      acc ∈ (handleSearch args o).accommodations →
      ProvidedFiltersHold args acc.type acc.pricePerNight acc.rating ∧
      (∀ fs, args.facilities = some fs → fs ≠ [] →
        ∀ fac ∈ fs, (acc.facilities.any (fun f => apiFacMatch f fac) = true ∨
                     acc.facilities.any (fun f => mockFacMatch f fac) = true))) ∧
    (∀ (args : SearchArgs) (acc : WorkerAccommodation),
      acc ∈ (handleToolCallW args).accommodations →
      ProvidedFiltersHold args acc.type acc.pricePerNight acc.rating) := by
  constructor
  · intro args o acc hmem
    rw [handleSearch_accommodations] at hmem
    cases e : searchAccommodationsAPI args o with
    | none =>
      rw [e] at hmem
      dsimp only at hmem
      obtain ⟨_, hcore, hfac⟩ := mem_applyMockFilters _ _ _ hmem
      exact ⟨hcore, fun fs hfs hne fac hin => Or.inr (hfac fs hfs hne fac hin)⟩
    | some l =>
      rw [e] at hmem
      dsimp only at hmem
      by_cases hl : l.length = 0
      · rw [if_pos hl] at hmem
        obtain ⟨_, hcore, hfac⟩ := mem_applyMockFilters _ _ _ hmem
        exact ⟨hcore, fun fs hfs hne fac hin => Or.inr (hfac fs hfs hne fac hin)⟩
      · rw [if_neg hl] at hmem
        cases o with
        | ok hotels =>
          have hel : apiAccommodations args hotels = l := Option.some.inj e
          rw [← hel] at hmem
          unfold apiAccommodations at hmem
          obtain ⟨_, hcore, hfac⟩ := mem_applyFilters _ _ _ hmem
          exact ⟨hcore, fun fs hfs hne fac hin => Or.inl (hfac fs hfs hne fac hin)⟩
        | noKey => exact Option.noConfusion e
        | destSearchHttpError => exact Option.noConfusion e
        | destSearchEmpty => exact Option.noConfusion e
        | hotelsHttpError => exact Option.noConfusion e
        | netError => exact Option.noConfusion e
  · intro args acc hmem
    have hm : acc ∈ workerApplyFilters args (workerMocks args) := hmem
    exact (mem_workerApplyFilters _ _ _ hm).2

/-- C1 witness arguments: a truthy minimum price. -/
def c1wArgs : SearchArgs := { emptyArgs "Paris" with minPrice := some 150 }

theorem c1_filters_amended_witness :
    mockB1 c1wArgs ∈ (handleSearch c1wArgs .noKey).accommodations ∧
    truthyRat c1wArgs.minPrice = some 150 ∧
    (150 : ℚ) ≤ (mockB1 c1wArgs).pricePerNight :=
  ⟨by decide, by decide,
    (c1_filters_amended.1 c1wArgs .noKey (mockB1 c1wArgs) (by decide)).1.2.1 150 (by decide)⟩

/-- C1 counterexample arguments: a facilities filter the Worker ignores. -/
def c1cexArgs : SearchArgs := { emptyArgs "Paris" with facilities := some ["beach-access"] }

/-- C1 counterexample: the Cloudflare Worker keeps mock record b1 in the
result of a search that requires the facility "beach-access", although no
facility of b1 matches it under either facility matcher. -/
theorem c1_worker_facilities_cex :
    c1cexArgs.facilities = some ["beach-access"] ∧
    workerB1 c1cexArgs ∈ (handleToolCallW c1cexArgs).accommodations ∧
    (workerB1 c1cexArgs).facilities.any (fun f => apiFacMatch f "beach-access") = false ∧
    (workerB1 c1cexArgs).facilities.any (fun f => mockFacMatch f "beach-access") = false :=
  ⟨rfl, by decide, by decide, by decide⟩

/-- C2: the mock fallback is used exactly when the upstream search returns
`null` or an empty list; a non-empty upstream list is returned as is. -/
theorem c2_mock_fallback_iff : ∀ (args : SearchArgs) (o : UpstreamOutcome),
    (searchAccommodationsAPI args o = none →
      (handleSearch args o).accommodations =
        applyMockFilters args (mockAccommodations args)) ∧
    (∀ l, searchAccommodationsAPI args o = some l → l = [] →
      (handleSearch args o).accommodations =
        applyMockFilters args (mockAccommodations args)) ∧
    (∀ l, searchAccommodationsAPI args o = some l → l ≠ [] →
      (handleSearch args o).accommodations = l) := by
  intro args o
  refine ⟨?_, ?_, ?_⟩
  · intro h
    rw [handleSearch_accommodations, h]
  · intro l h hl
    subst hl
    rw [handleSearch_accommodations, h]
    rfl
  · intro l h hl
    have hn : ¬ l.length = 0 := fun hc => hl (List.eq_nil_of_length_eq_zero hc)
    rw [handleSearch_accommodations, h]
    dsimp only
    rw [if_neg hn]

theorem c2_mock_fallback_iff_witness :
    searchAccommodationsAPI (emptyArgs "Berlin") .noKey = none ∧
    (handleSearch (emptyArgs "Berlin") .noKey).accommodations =
      applyMockFilters (emptyArgs "Berlin") (mockAccommodations (emptyArgs "Berlin")) :=
  ⟨rfl, (c2_mock_fallback_iff (emptyArgs "Berlin") .noKey).1 rfl⟩

/-- C3 (amended): every non-success upstream condition is handled identically
and yields the fixed mock records b1, b2, b3 *after the request's filters are
applied to them*; the result is exactly the three records only when no truthy
filter is provided. -/
theorem c3_failure_uniform_amended :
    ∀ (args : SearchArgs) (o1 o2 : UpstreamOutcome),
    isFailure o1 = true → isFailure o2 = true →
    (handleSearch args o1).accommodations = (handleSearch args o2).accommodations ∧
    (handleSearch args o1).accommodations =
      applyMockFilters args (mockAccommodations args) ∧
    (handleSearch args (.ok [])).accommodations =
      applyMockFilters args (mockAccommodations args) ∧
    (NoTruthyFilters args →
      (handleSearch args o1).accommodations = mockAccommodations args) := by
  intro args o1 o2 h1 h2
  have e1 : (handleSearch args o1).accommodations =
      applyMockFilters args (mockAccommodations args) := by
    rw [handleSearch_accommodations, searchAPI_none_of_failure args o1 h1]
  have e2 : (handleSearch args o2).accommodations =
      applyMockFilters args (mockAccommodations args) := by
    rw [handleSearch_accommodations, searchAPI_none_of_failure args o2 h2]
  have e3 : (handleSearch args (.ok [])).accommodations =
      applyMockFilters args (mockAccommodations args) := by
    rw [handleSearch_accommodations]
    dsimp only [searchAccommodationsAPI]
    rw [apiAccommodations_nil]
    rfl
  exact ⟨e1.trans e2.symm, e1, e3,
    fun hnf => e1.trans (applyMockFilters_id args _ hnf)⟩

theorem c3_failure_uniform_amended_witness :
    isFailure UpstreamOutcome.noKey = true ∧
    isFailure UpstreamOutcome.netError = true ∧
    (handleSearch (emptyArgs "Oslo") .noKey).accommodations =
      mockAccommodations (emptyArgs "Oslo") :=
  ⟨rfl, rfl,
    (c3_failure_uniform_amended (emptyArgs "Oslo") .noKey .netError rfl rfl).2.2.2
      ⟨rfl, rfl, rfl, rfl, fun fs h => by cases h⟩⟩

/-- C3 counterexample arguments: an accommodation-type filter. -/
def c3cexArgs : SearchArgs := { emptyArgs "Paris" with accommodationType := some "apartment" }

/-- C3 counterexample: with an accommodation-type filter and a failing
upstream call, the handler returns only mock record b2, not the fixed
three-record mock result set. -/
theorem c3_filtered_mock_cex :
    (handleSearch c3cexArgs .noKey).accommodations = [mockB2 c3cexArgs] ∧
    (handleSearch c3cexArgs .noKey).accommodations ≠ mockAccommodations c3cexArgs :=
  ⟨by decide, by decide⟩

/-- C4: for conforming arguments the search tool call always returns a
normal result, whatever the upstream outcome (including thrown errors). -/
theorem c4_never_error : ∀ (args : SearchArgs) (o : UpstreamOutcome),
    callTool "accomodations.search" args o = Except.ok (handleSearch args o) := by
  intro args o
  unfold callTool
  rw [if_pos rfl]

/-- C5 (divergence witness): mock record b1 (server and Worker alike)
hard-codes the reviewScore label "Excellent", while the fixed mapping
`getReviewScore` yields "Wonderful" for its rating 8.9; "Excellent" is not
even a producible label of the mapping. -/
theorem c5_mock_label_divergence : ∀ args : SearchArgs,
    mockB1 args ∈ mockAccommodations args ∧
    (mockB1 args).rating = mkRat 89 10 ∧
    (mockB1 args).reviewScore = "Excellent" ∧
    getReviewScore ((mockB1 args).rating) = "Wonderful" ∧
    (workerB1 args).reviewScore = "Excellent" ∧
    getReviewScore ((workerB1 args).rating) = "Wonderful" ∧
    "Excellent" ≠ "Wonderful" := by
  intro args
  refine ⟨List.mem_cons_self _ _, rfl, rfl, ?_, rfl, ?_, by decide⟩
  · exact (by decide : getReviewScore (mkRat 89 10) = "Wonderful")
  · exact (by decide : getReviewScore (mkRat 89 10) = "Wonderful")

/-- C6: `determineAccommodationType` always lands in the ten-element
lodging-type enumeration (unrecognized input maps to "hotel"), hence so does
the `type` field of every record built on the upstream-API path. -/
theorem c6_type_enum :
    (∀ s, determineAccommodationType s ∈ typeEnum) ∧
    (∀ s, typeMap.find? (fun p => p.1 == lowerStr s) = none →
      determineAccommodationType s = "hotel") ∧
    (∀ (args : SearchArgs) (h : RawHotel), (transformHotel args h).type ∈ typeEnum) := by
  have h1 : ∀ s, determineAccommodationType s ∈ typeEnum := by
    have hmap : ∀ p ∈ typeMap, p.2 ∈ typeEnum := by decide
    intro s
    unfold determineAccommodationType
    split
    next p e => exact hmap p (List.mem_of_find?_eq_some e)
    next e => decide
  refine ⟨h1, ?_, fun args h => h1 (jsOrStr h.prop_accommodationType "hotel")⟩
  intro s e
  unfold determineAccommodationType
  rw [e]

theorem c6_type_enum_witness :
    typeMap.find? (fun p => p.1 == lowerStr "castle") = none ∧
    determineAccommodationType "castle" = "hotel" :=
  ⟨by decide, c6_type_enum.2.1 "castle" (by decide)⟩

/-- C7 (amended): a POST with an absent *or empty* sessionId gets 400; a
non-empty sessionId not in the session map gets 404; a non-empty sessionId
in the map dispatches to exactly the stored transport. -/
theorem c7_post_routing_amended :
    ∀ (sessions : String → Option Nat) (sidParam : Option String),
    (truthyStr sidParam = none →
      handlePostMessage sessions sidParam =
        .respond 400 "Missing sessionId query parameter") ∧
    (∀ s, truthyStr sidParam = some s → sessions s = none →
      handlePostMessage sessions sidParam = .respond 404 "Unknown session") ∧
    (∀ s t, truthyStr sidParam = some s → sessions s = some t →
      handlePostMessage sessions sidParam = .dispatched t) := by
  intro sess sid
  refine ⟨?_, ?_, ?_⟩
  · intro h
    unfold handlePostMessage
    rw [h]
  · intro s hs hn
    unfold handlePostMessage
    rw [hs]
    dsimp only
    rw [hn]
  · intro s t hs ht
    unfold handlePostMessage
    rw [hs]
    dsimp only
    rw [ht]

/-- C7 witness sessions: one open session "abc" with transport 7. -/
def sessEx : String → Option Nat := fun s => if s = "abc" then some 7 else none

theorem c7_post_routing_amended_witness :
    handlePostMessage sessEx (some "abc") = .dispatched 7 :=
  (c7_post_routing_amended sessEx (some "abc")).2.2 "abc" 7 (by decide) (by decide)

/-- C7 counterexample sessions: the empty session map. -/
def c7cexSessions : String → Option Nat := fun _ => none

/-- C7 counterexample: an empty-string sessionId is present but falsy, so the
server answers 400, although the id is also not a key of the (empty) session
map, for which the claim demands 404. -/
theorem c7_empty_sessionid_cex :
    c7cexSessions "" = none ∧
    handlePostMessage c7cexSessions (some "") =
      .respond 400 "Missing sessionId query parameter" ∧
    PostOutcome.respond 400 "Missing sessionId query parameter" ≠
      PostOutcome.respond 404 "Unknown session" :=
  ⟨rfl, rfl, by decide⟩

/-- C8: after any sequence of SSE connect/close events, every session id in
the map denotes an open connection, and any POST that is dispatched goes to
an open connection. -/
theorem c8_sessions_open_invariant : ∀ (es : List SessEvent),
    (∀ s t, (sessRun es).sessions s = some t → (sessRun es).openConn s = true) ∧
    (∀ sid s t, truthyStr sid = some s →
      handlePostMessage (sessRun es).sessions sid = .dispatched t →
      (sessRun es).openConn s = true) := by
  intro es
  have hinv : ∀ s t, (sessRun es).sessions s = some t →
      (sessRun es).openConn s = true := by
    unfold sessRun
    exact sessFoldl_inv es sessInit (fun s t h => Option.noConfusion h)
  refine ⟨hinv, ?_⟩
  intro sid s t hs hd
  exact hinv s t (handlePostMessage_dispatched _ _ _ _ hs hd)

/-- C8 witness trace: one successful SSE connection. -/
def c8wTrace : List SessEvent := [SessEvent.sseConnect "a" 5 true]

theorem c8_sessions_open_invariant_witness :
    (sessRun c8wTrace).sessions "a" = some 5 ∧
    (sessRun c8wTrace).openConn "a" = true :=
  ⟨by decide, (c8_sessions_open_invariant c8wTrace).1 "a" 5 (by decide)⟩

/-- C9: the upstream-API path takes only the first 10 hotels before
filtering, and filtering never adds records, so the result has at most 10. -/
theorem c9_api_at_most_ten : ∀ (args : SearchArgs) (hotels : List RawHotel),
    searchAccommodationsAPI args (.ok hotels) = some (apiAccommodations args hotels) ∧
    (apiAccommodations args hotels).length ≤ 10 := by
  intro args hotels
  refine ⟨rfl, ?_⟩
  unfold apiAccommodations
  have h1 := length_applyFilters_le args ((hotels.take 10).map (transformHotel args))
  have h2 : ((hotels.take 10).map (transformHotel args)).length =
      (hotels.take 10).length := List.length_map _ _
  have h3 : (hotels.take 10).length ≤ 10 := List.length_take_le _ _
  omega

/-- C10 (amended): on the mock paths (server and Worker) totalPrice equals
pricePerNight times the nights value (default 3); on the upstream-API path
totalPrice is `round(raw * nights)`, which equals pricePerNight times nights
whenever the raw upstream price and the nights value are integers. -/
theorem c10_total_price_amended :
    (∀ (args : SearchArgs), ∀ acc ∈ mockAccommodations args,
      acc.totalPrice = acc.pricePerNight * nightsOr3 args.nights) ∧
    (∀ (args : SearchArgs), ∀ acc ∈ workerMocks args,
      acc.totalPrice = acc.pricePerNight * nightsOr3 args.nights) ∧
    (∀ (args : SearchArgs) (h : RawHotel) (k m : ℤ),
      rawPrice h = (k : ℚ) → nightsOr3 args.nights = (m : ℚ) →
      (transformHotel args h).totalPrice =
        (transformHotel args h).pricePerNight * nightsOr3 args.nights) := by
  refine ⟨?_, ?_, ?_⟩
  · intro args acc hacc
    simp only [mockAccommodations, List.mem_cons, List.not_mem_nil, or_false] at hacc
    rcases hacc with h | h | h <;> subst h <;>
      (dsimp only [mockB1, mockB2, mockB3]; rw [ratMul_eq]; ring)
  · intro args acc hacc
    simp only [workerMocks, List.mem_cons, List.not_mem_nil, or_false] at hacc
    rcases hacc with h | h | h <;> subst h <;>
      (dsimp only [workerB1, workerB2, workerB3]; rw [ratMul_eq]; ring)
  · intro args h k m hk hm
    show jsRound (ratMul (rawPrice h) (nightsOr3 args.nights)) =
      jsRound (rawPrice h) * nightsOr3 args.nights
    rw [ratMul_eq, hk, hm, ← Int.cast_mul, jsRound_intCast, jsRound_intCast,
      Int.cast_mul]

/-- C10 witness hotel: an integral raw price of 100. -/
def c10wHotel : RawHotel := { emptyHotel with prop_grossPriceValue := some 100 }

theorem c10_total_price_amended_witness :
    rawPrice c10wHotel = ((100 : ℤ) : ℚ) ∧
    nightsOr3 (emptyArgs "Rome").nights = ((3 : ℤ) : ℚ) ∧
    (transformHotel (emptyArgs "Rome") c10wHotel).totalPrice =
      (transformHotel (emptyArgs "Rome") c10wHotel).pricePerNight *
        nightsOr3 (emptyArgs "Rome").nights :=
  ⟨by decide, by decide,
    c10_total_price_amended.2.2 (emptyArgs "Rome") c10wHotel 100 3
      (by decide) (by decide)⟩

/-- C10 counterexample hotel: a fractional raw price of 100.4. -/
def c10cexHotel : RawHotel := { emptyHotel with prop_grossPriceValue := some (mkRat 1004 10) }

/-- C10 counterexample: with raw price 100.4 and the default 3 nights, the
API path produces totalPrice 301 but pricePerNight times nights is 300. -/
theorem c10_rounding_cex :
    (transformHotel (emptyArgs "Rome") c10cexHotel).totalPrice = 301 ∧
    (transformHotel (emptyArgs "Rome") c10cexHotel).pricePerNight *
      nightsOr3 (emptyArgs "Rome").nights = 300 ∧
    (301 : ℚ) ≠ 300 := by
  refine ⟨by decide, ?_, by decide⟩
  rw [show (transformHotel (emptyArgs "Rome") c10cexHotel).pricePerNight = (100 : ℚ)
        by decide,
      show nightsOr3 (emptyArgs "Rome").nights = (3 : ℚ) from rfl]
  norm_num
